import Mathlib

/-!
# Verification of the Jobly partial-update and filter-query builders

Shallow embedding of the SQL-building logic of the Jobly Express backend:
the `sqlForPartialUpdate` helper (helpers/sql.js) and the query-building
parts of the `Job` and `Company` data-access models (models/job.js,
models/company.js), together with the post-query error mapping of
`get` / `update` / `remove` / `create`.

JavaScript dynamic values are modelled by `JSValue`; the database is an
abstract executor `DBExec : String → List JSValue → List Row` passed as a
parameter, and functions that issue queries also return the trace of
queries they issued, so that ordering properties ("check before insert",
"fail before querying") are expressible.
-/

namespace Jobly

/-- A JavaScript scalar value as it appears in update data and filter
criteria: a string, a number (integral values suffice for this code base),
a boolean, or `undefined` (the absent value). -/
inductive JSValue where
  | vStr (s : String)
  | vNum (n : Int)
  | vBool (b : Bool)
  | vUndefined
deriving DecidableEq, Repr

/-- JavaScript truthiness: `""`, `0`, `false` and `undefined` are falsy. -/
def truthy : JSValue → Bool
  | .vStr s => s != ""
  | .vNum n => n != 0
  | .vBool b => b
  | .vUndefined => false

/-- JavaScript `ToString`, as used by template-literal interpolation. -/
def jsToString : JSValue → String
  | .vStr s => s
  | .vNum n => toString n
  | .vBool b => if b then "true" else "false"
  | .vUndefined => "undefined"

/-- Numeric value of a digit string (with optional leading minus sign);
`none` models `NaN`.  This models JavaScript `ToNumber` on the integral
string literals this code base receives from query parameters. -/
def strToNumber (s : String) : Option Int :=
  if s = "" then some 0
  else if s.data.all Char.isDigit then some (s.toNat!)
  else if s.data.head? = some '-' ∧ (s.drop 1).data.all Char.isDigit ∧ s.length > 1 then
    some (-(s.drop 1).toNat!)
  else none

/-- JavaScript `ToNumber`; `none` models `NaN`. -/
def toNumber : JSValue → Option Int
  | .vStr s => strToNumber s
  | .vNum n => some n
  | .vBool b => some (if b then 1 else 0)
  | .vUndefined => none

/-- JavaScript `>` relational comparison: two strings compare
lexicographically, otherwise both sides are converted to numbers and a
`NaN` on either side makes the comparison false. -/
def jsGt (a b : JSValue) : Bool :=
  match a, b with
  | .vStr s, .vStr t => decide (t < s)
  | _, _ =>
    match toNumber a, toNumber b with
    | some x, some y => decide (x > y)
    | _, _ => false

/-- A database row: a record of column name / value pairs. -/
abbrev Row := List (String × JSValue)

/-- An abstract database executor: a SQL text and a positional bind-value
list yield a row set (models `db.query`). -/
abbrev DBExec := String → List JSValue → List Row

/-- The typed error kinds raised by the data-access layer
(expressError.js: `BadRequestError`, `NotFoundError`). -/
inductive JoblyError where
  | badRequest (msg : String)
  | notFound (msg : String)
deriving DecidableEq, Repr

/-! ## helpers/sql.js — `sqlForPartialUpdate` -/

/-- Result of `sqlForPartialUpdate`: the SQL `SET` clause text and the
ordered bind values. -/
structure SqlSet where
  setCols : String
  values : List JSValue
deriving DecidableEq, Repr

/-- The column-name lookup `jsToSql[colName] || colName`: the mapped name
when the table has a truthy (non-empty-string) entry for the key, the key
itself otherwise. -/
def translate (jsToSql : List (String × String)) (colName : String) : String :=
  match jsToSql.lookup colName with
  | some v => if v = "" then colName else v
  | none => colName

/-- Model of `sqlForPartialUpdate(dataToUpdate, jsToSql)` (helpers/sql.js, lines
11–26).  `dataToUpdate` is the object's key/value pairs in insertion
order; throws `BadRequestError("No data")` when there are no keys,
otherwise builds one `"col"=$i` clause per key (1-based `i`), joins them
with `", "`, and returns the values in the same order. -/
def sqlForPartialUpdate (dataToUpdate : List (String × JSValue))
    (jsToSql : List (String × String)) : Except JoblyError SqlSet :=
  let keys := dataToUpdate.map Prod.fst
  if keys.length = 0 then .error (.badRequest "No data")
  else
    let cols := keys.enum.map (fun p =>
      "\"" ++ translate jsToSql p.2 ++ "\"=$" ++ toString (p.1 + 1))
    .ok { setCols := String.intercalate ", " cols
          values := dataToUpdate.map Prod.snd }

/-! ## models/job.js and models/company.js — criteria query builders

`findByCriteria` builds a SQL text plus bind-value list and hands it to
`db.query`; building is pure, so it is embedded as the `BuiltQuery` it
hands over.  The string constants reproduce the source template literals
character for character, whitespace included. -/

/-- Result handed to `db.query`: the SQL text and the bind values. -/
structure BuiltQuery where
  query : String
  values : List JSValue
deriving DecidableEq, Repr

/-- Argument object of `Job.findByCriteria` (absent fields are
`undefined`). -/
structure JobCriteria where
  title : JSValue
  minSalary : JSValue
  hasEquity : JSValue

/-- Base projection of `Job.findByCriteria` (models/job.js lines 94–101). -/
def jobCriteriaBase : String :=
  "\n    SELECT \n    id,\n    title, \n    salary, \n    equity, \n    company_handle AS \"companyHandle\"\n     FROM jobs"

/-- The query-building part of `Job.findByCriteria` (models/job.js lines
92–133): conditionally append the title / minSalary / hasEquity fragments
to the base query, then the ORDER BY clause. -/
def Job.findByCriteria (c : JobCriteria) : BuiltQuery :=
  let query := jobCriteriaBase
  let values : List JSValue := []
  let (query, values) :=
    if truthy c.title then
      (query ++ "\n        WHERE title ILIKE $1",
       values ++ [JSValue.vStr ("%" ++ jsToString c.title ++ "%")])
    else (query, values)
  let (query, values) :=
    if truthy c.minSalary then
      (query ++ "\n        " ++ (if truthy c.title then "AND" else "WHERE") ++
         " salary >= $" ++ toString (values.length + 1),
       values ++ [c.minSalary])
    else (query, values)
  let query :=
    if c.hasEquity = .vStr "true" ∨ c.hasEquity = .vBool true then
      query ++ "\n        " ++
        (if truthy c.title || truthy c.minSalary then "AND" else "WHERE") ++
        " equity > 0"
    else if c.hasEquity = .vStr "false" ∨ c.hasEquity = .vBool false then
      query ++ "\n        " ++
        (if truthy c.title || truthy c.minSalary then "AND" else "WHERE") ++
        " equity = 0"
    else query
  let query := query ++ "\n      ORDER BY title"
  { query := query, values := values }

/-- Argument object of `Company.findByCriteria` (absent fields are
`undefined`). -/
structure CompanyCriteria where
  name : JSValue
  minEmployees : JSValue
  maxEmployees : JSValue

/-- Base projection of `Company.findByCriteria` (models/company.js lines
295–301). -/
def companyCriteriaBase : String :=
  "\n      SELECT handle,\n             name,\n             description,\n             num_employees AS \"numEmployees\",\n             logo_url AS \"logoUrl\"\n      FROM companies"

/-- The fragment-appending part of `Company.findByCriteria`
(models/company.js lines 295–329, reached only after validation):
conditionally append the name / minEmployees / maxEmployees fragments to
the base query, then the ORDER BY clause. -/
def Company.buildCriteriaQuery (c : CompanyCriteria) : BuiltQuery :=
  let query := companyCriteriaBase
  let values : List JSValue := []
  let (query, values) :=
    if truthy c.name then
      (query ++ "\n        WHERE name ILIKE $1",
       values ++ [JSValue.vStr ("%" ++ jsToString c.name ++ "%")])
    else (query, values)
  let (query, values) :=
    if truthy c.minEmployees then
      (query ++ "\n        " ++ (if truthy c.name then "AND" else "WHERE") ++
         " num_employees >= $" ++ toString (values.length + 1),
       values ++ [c.minEmployees])
    else (query, values)
  let (query, values) :=
    if truthy c.maxEmployees then
      (query ++ "\n        " ++
         (if truthy c.name || truthy c.minEmployees then "AND" else "WHERE") ++
         " num_employees <= $" ++ toString (values.length + 1),
       values ++ [c.maxEmployees])
    else (query, values)
  let query := query ++ "\n      ORDER BY name"
  { query := query, values := values }

/-- Model of `Company.findByCriteria` (models/company.js lines 289–332): reject
with BadRequest when both employee bounds are truthy and the minimum
exceeds the maximum, otherwise build the query. -/
def Company.findByCriteria (c : CompanyCriteria) : Except JoblyError BuiltQuery :=
  if truthy c.minEmployees && truthy c.maxEmployees &&
      jsGt c.minEmployees c.maxEmployees then
    .error (.badRequest "minEmployees cannot be greater than maxEmployees")
  else
    .ok (Company.buildCriteriaQuery c)

/-- Model of `Company.findByCriteria` with the database call: on validation failure
the error propagates with no query issued; otherwise the one built query
is executed.  The second component is the trace of issued queries. -/
def Company.findByCriteriaExec (db : DBExec) (c : CompanyCriteria) :
    Except JoblyError (List Row) × List (String × List JSValue) :=
  match Company.findByCriteria c with
  | .error e => (.error e, [])
  | .ok bq => (.ok (db bq.query bq.values), [(bq.query, bq.values)])

/-! ## models/job.js — `get`, `update`, `remove`

Each issues one query and maps an empty row set (`rows[0]` falsy) to
`NotFoundError`. -/

/-- Query text of `Job.get` (models/job.js lines 149–158). -/
def jobGetQuery : String :=
  "SELECT \n          id,\n          title, \n          salary, \n          equity, \n          company_handle AS \"companyHandle\"\n           FROM jobs\n           WHERE id = $1"

/-- Model of `Job.get(id)` (models/job.js lines 148–164). -/
def Job.get (db : DBExec) (id : JSValue) : Except JoblyError Row :=
  let jobRes := db jobGetQuery [id]
  match jobRes.head? with
  | none => .error (.notFound ("No job with an id of " ++ jsToString id))
  | some job => .ok job

/-- Model of `Job.update(id, data)` (models/job.js lines 178–199): build the SET
clause via `sqlForPartialUpdate` (propagating its BadRequest on empty
data), issue the UPDATE, and map an empty result to NotFound. -/
def Job.update (db : DBExec) (id : JSValue) (data : List (String × JSValue)) :
    Except JoblyError Row :=
  match sqlForPartialUpdate data [("companyHandle", "company_handle")] with
  | .error e => .error e
  | .ok su =>
    let handleVarIdx := "$" ++ toString (su.values.length + 1)
    let querySql := "UPDATE jobs \n                      SET " ++ su.setCols ++
      " \n                      WHERE id = " ++ handleVarIdx ++
      " \n                      RETURNING id, \n                      title, \n                      salary, \n                      equity, \n                      company_handle AS \"companyHandle\""
    let result := db querySql (su.values ++ [id])
    match result.head? with
    | none => .error (.notFound ("No job with id: " ++ jsToString id))
    | some job => .ok job

/-- Query text of `Job.remove` (models/job.js lines 207–212). -/
def jobRemoveQuery : String :=
  "DELETE\n           FROM jobs\n           WHERE id = $1\n           RETURNING id"

/-- Model of `Job.remove(id)` (models/job.js lines 206–217). -/
def Job.remove (db : DBExec) (id : JSValue) : Except JoblyError Row :=
  let result := db jobRemoveQuery [id]
  match result.head? with
  | none => .error (.notFound "No job found")
  | some deletedId => .ok deletedId

/-! ## models/company.js — `create`, `get`, `update`, `remove` -/

/-- Argument object of `Company.create`. -/
structure CompanyData where
  handle : JSValue
  name : JSValue
  description : JSValue
  numEmployees : JSValue
  logoUrl : JSValue

/-- Duplicate-check query of `Company.create` (models/company.js lines
240–244). -/
def companyDupCheckQuery : String :=
  "SELECT handle\n           FROM companies\n           WHERE handle = $1"

/-- INSERT query of `Company.create` (models/company.js lines 249–261). -/
def companyInsertQuery : String :=
  "INSERT INTO companies\n           (handle, name, description, num_employees, logo_url)\n           VALUES ($1, $2, $3, $4, $5)\n           RETURNING handle, name, description, num_employees AS \"numEmployees\", logo_url AS \"logoUrl\""

/-- Model of `Company.create(data)` (models/company.js lines 239–265): run the
duplicate check first; on a hit throw BadRequest without inserting,
otherwise insert and return the new row (`rows[0]`).  The second
component is the trace of issued queries in order. -/
def Company.create (db : DBExec) (c : CompanyData) :
    Except JoblyError (Option Row) × List (String × List JSValue) :=
  let dupRows := db companyDupCheckQuery [c.handle]
  match dupRows.head? with
  | some _ =>
    (.error (.badRequest ("Duplicate company: " ++ jsToString c.handle)),
     [(companyDupCheckQuery, [c.handle])])
  | none =>
    let insVals := [c.handle, c.name, c.description, c.numEmployees, c.logoUrl]
    let result := db companyInsertQuery insVals
    (.ok result.head?,
     [(companyDupCheckQuery, [c.handle]), (companyInsertQuery, insVals)])

/-- Query text of `Company.get` (models/company.js lines 346–354). -/
def companyGetQuery : String :=
  "SELECT handle,\n                  name,\n                  description,\n                  num_employees AS \"numEmployees\",\n                  logo_url AS \"logoUrl\"\n           FROM companies\n           WHERE handle = $1"

/-- Model of `Company.get(handle)` (models/company.js lines 345–361). -/
def Company.get (db : DBExec) (handle : JSValue) : Except JoblyError Row :=
  let companyRes := db companyGetQuery [handle]
  match companyRes.head? with
  | none => .error (.notFound ("No company: " ++ jsToString handle))
  | some company => .ok company

/-- Model of `Company.update(handle, data)` (models/company.js lines 375–398). -/
def Company.update (db : DBExec) (handle : JSValue)
    (data : List (String × JSValue)) : Except JoblyError Row :=
  match sqlForPartialUpdate data
      [("numEmployees", "num_employees"), ("logoUrl", "logo_url")] with
  | .error e => .error e
  | .ok su =>
    let handleVarIdx := "$" ++ toString (su.values.length + 1)
    let querySql := "UPDATE companies \n                      SET " ++ su.setCols ++
      " \n                      WHERE handle = " ++ handleVarIdx ++
      " \n                      RETURNING handle, \n                                name, \n                                description, \n                                num_employees AS \"numEmployees\", \n                                logo_url AS \"logoUrl\""
    let result := db querySql (su.values ++ [handle])
    match result.head? with
    | none => .error (.notFound ("No company: " ++ jsToString handle))
    | some company => .ok company

/-- Query text of `Company.remove` (models/company.js lines 406–411). -/
def companyRemoveQuery : String :=
  "DELETE\n           FROM companies\n           WHERE handle = $1\n           RETURNING handle"

/-- Model of `Company.remove(handle)` (models/company.js lines 405–415); returns
unit on success. -/
def Company.remove (db : DBExec) (handle : JSValue) : Except JoblyError Unit :=
  let result := db companyRemoveQuery [handle]
  match result.head? with
  | none => .error (.notFound ("No company: " ++ jsToString handle))
  | some _ => .ok ()

/-! ## Analysis helpers

Definitions used to *state* properties of the generated SQL: a scanner
for `$N` placeholders, and spec-side formulations of the clause lists the
spec describes, to be compared with the strings the code builds. -/

/-- Scanner state machine over a character list: `acc = some n` means we
are inside the digit run of a placeholder whose digits so far denote `n`.
Emits the numeric index of every `$`-digit-run placeholder, left to
right. -/
def scanAux : List Char → Option Nat → List Nat
  | [], none => []
  | [], some acc => [acc]
  | c :: cs, none =>
    if c = '$' then scanAux cs (some 0) else scanAux cs none
  | c :: cs, some acc =>
    if c.isDigit then scanAux cs (some (acc * 10 + (c.toNat - 48)))
    else if c = '$' then acc :: scanAux cs (some 0)
    else acc :: scanAux cs none

/-- The `$N` placeholder indices occurring in a SQL text, in order of
occurrence. -/
def extractPlaceholders (s : String) : List Nat :=
  scanAux s.data none

/-- Modelled from the spec (§4.2): the first present filter's clause is
prefixed with `WHERE`, every subsequent one with `AND` (each fragment on
its own line, as the code lays it out). -/
def specWhereAndChain (clauses : List String) : String :=
  String.join (clauses.enum.map (fun p =>
    "\n        " ++ (if p.1 = 0 then "WHERE" else "AND") ++ " " ++ p.2))

/-- Modelled from the spec (§4.2): the job filter conditions that are
present, in the fixed declared order (text filter, minimum bound, equity
flag), each rendered as its bare SQL comparison; value-consuming filters
take the next free `$` slot, the equity filter compares against a literal
constant and takes none. -/
def specJobClauses (c : JobCriteria) : List String :=
  (if truthy c.title then ["title ILIKE $1"] else []) ++
  (if truthy c.minSalary then
     ["salary >= $" ++ toString ((if truthy c.title then 1 else 0) + 1)]
   else []) ++
  (if c.hasEquity = .vStr "true" ∨ c.hasEquity = .vBool true then
     ["equity > 0"]
   else if c.hasEquity = .vStr "false" ∨ c.hasEquity = .vBool false then
     ["equity = 0"]
   else [])

/-- Modelled from the spec (§4.2): the company filter conditions that are
present, in the fixed declared order (text filter, minimum bound, maximum
bound); every one consumes the next free `$` slot. -/
def specCompanyClauses (c : CompanyCriteria) : List String :=
  (if truthy c.name then ["name ILIKE $1"] else []) ++
  (if truthy c.minEmployees then
     ["num_employees >= $" ++ toString ((if truthy c.name then 1 else 0) + 1)]
   else []) ++
  (if truthy c.maxEmployees then
     ["num_employees <= $" ++
        toString ((if truthy c.name then 1 else 0) +
                  (if truthy c.minEmployees then 1 else 0) + 1)]
   else [])

/-- A database executor that finds no rows for any query. -/
def emptyDB : DBExec := fun _ _ => []

/-- A database executor that returns one row for every query (in
particular for the duplicate-handle check). -/
def oneRowDB : DBExec := fun _ _ => [[("handle", JSValue.vStr "c1")]]

/-- The update mapping of the spec's worked example,
`{firstName: "Aliya", age: 32}`. -/
def exampleUpdateData : List (String × JSValue) :=
  [("firstName", JSValue.vStr "Aliya"), ("age", JSValue.vNum 32)]

/-- The translation table of the spec's worked example,
`{firstName: "first_name"}`. -/
def exampleJsToSql : List (String × String) :=
  [("firstName", "first_name")]

/-! ## Supporting lemmas -/

set_option maxRecDepth 10000

/-- Mapping over an enumerated list is mapping the index-lookup function
over the index range. -/
theorem enum_map_eq_range_map {α β : Type} (d : α) (f : Nat × α → β) (l : List α) :
    l.enum.map f = (List.range l.length).map (fun i => f (i, l.getD i d)) := by
  apply List.ext_getElem
  · simp [List.enum_length]
  · intro n h1 h2
    simp only [List.getElem_map, List.getElem_enum, List.getElem_range]
    congr 1
    rw [List.getD_eq_getElem]

/-- The absent value is falsy. -/
theorem truthy_undefined : truthy JSValue.vUndefined = false := rfl

/-- Removing every entry for `key` from a table does not change the
lookup of any other key. -/
theorem lookup_filter_ne (l : List (String × String)) (key k : String)
    (hk : k ≠ key) :
    (l.filter (fun p => p.1 != key)).lookup k = l.lookup k := by
  induction l with
  | nil => simp
  | cons a l ih =>
    obtain ⟨a1, a2⟩ := a
    by_cases ha : a1 = key
    · subst ha
      have hb : (k == a1) = false := by simp [hk]
      simp [List.filter, List.lookup, hb, ih]
    · have hb : (a1 != key) = true := by simp [ha]
      by_cases hka : k = a1
      · subst hka
        simp [List.filter, hb, List.lookup]
      · have hb2 : (k == a1) = false := by simp [hka]
        simp [List.filter, hb, List.lookup, hb2, ih]

/-- After removing every entry for `key`, looking `key` up finds
nothing. -/
theorem lookup_filter_self (l : List (String × String)) (key : String) :
    (l.filter (fun p => p.1 != key)).lookup key = none := by
  induction l with
  | nil => simp
  | cons a l ih =>
    obtain ⟨a1, a2⟩ := a
    by_cases ha : a1 = key
    · subst ha
      simp [List.filter, ih]
    · have hb : (a1 != key) = true := by simp [ha]
      have hb2 : (key == a1) = false := by simp [Ne.symm ha]
      simp [List.filter, hb, List.lookup, hb2, ih]

/-- A key whose table entry is the falsy empty string translates the same
way under the original table and under the table with that key's entries
removed — and so does every other key. -/
theorem translate_filter (jsToSql : List (String × String)) (key : String)
    (h : jsToSql.lookup key = some "") (k : String) :
    translate jsToSql k = translate (jsToSql.filter (fun p => p.1 != key)) k := by
  by_cases hk : k = key
  · subst hk
    simp [translate, h, lookup_filter_self]
  · simp [translate, lookup_filter_ne jsToSql key k hk]

/-- Placeholder indices of the built job query are `1..k` for `k` bind
values. -/
theorem job_placeholders_aux (c : JobCriteria) :
    extractPlaceholders (Job.findByCriteria c).query =
      List.range' 1 (Job.findByCriteria c).values.length := by
  obtain ⟨t, m, e⟩ := c
  by_cases he : e = JSValue.vStr "true" ∨ e = JSValue.vBool true
  · rcases he with rfl | rfl <;> by_cases ht : truthy t <;> by_cases hm : truthy m <;>
      simp [Job.findByCriteria, ht, hm] <;> decide
  · by_cases hf : e = JSValue.vStr "false" ∨ e = JSValue.vBool false
    · rcases hf with rfl | rfl <;> by_cases ht : truthy t <;> by_cases hm : truthy m <;>
        simp [Job.findByCriteria, ht, hm] <;> decide
    · by_cases ht : truthy t <;> by_cases hm : truthy m <;>
        simp [Job.findByCriteria, he, hf, ht, hm] <;> decide

/-- Placeholder indices of the built company query are `1..k` for `k`
bind values. -/
theorem company_placeholders_aux (c : CompanyCriteria) :
    extractPlaceholders (Company.buildCriteriaQuery c).query =
      List.range' 1 (Company.buildCriteriaQuery c).values.length := by
  obtain ⟨n, mn, mx⟩ := c
  by_cases hn : truthy n <;> by_cases hmn : truthy mn <;> by_cases hmx : truthy mx <;>
    simp [Company.buildCriteriaQuery, hn, hmn, hmx] <;> decide

/-- The built job query is the base query, the spec-side WHERE/AND chain
of the present clauses, and the ORDER BY terminator. -/
theorem job_chain_aux (c : JobCriteria) :
    (Job.findByCriteria c).query =
      jobCriteriaBase ++ specWhereAndChain (specJobClauses c) ++
        "\n      ORDER BY title" := by
  obtain ⟨t, m, e⟩ := c
  by_cases he : e = JSValue.vStr "true" ∨ e = JSValue.vBool true
  · rcases he with rfl | rfl <;> by_cases ht : truthy t <;> by_cases hm : truthy m <;>
      simp [Job.findByCriteria, specJobClauses, specWhereAndChain, ht, hm] <;> decide
  · by_cases hf : e = JSValue.vStr "false" ∨ e = JSValue.vBool false
    · rcases hf with rfl | rfl <;> by_cases ht : truthy t <;> by_cases hm : truthy m <;>
        simp [Job.findByCriteria, specJobClauses, specWhereAndChain, ht, hm] <;> decide
    · by_cases ht : truthy t <;> by_cases hm : truthy m <;>
        simp [Job.findByCriteria, specJobClauses, specWhereAndChain, he, hf, ht, hm] <;>
          decide

/-- The built company query is the base query, the spec-side WHERE/AND
chain of the present clauses, and the ORDER BY terminator. -/
theorem company_chain_aux (c : CompanyCriteria) :
    (Company.buildCriteriaQuery c).query =
      companyCriteriaBase ++ specWhereAndChain (specCompanyClauses c) ++
        "\n      ORDER BY name" := by
  obtain ⟨n, mn, mx⟩ := c
  by_cases hn : truthy n <;> by_cases hmn : truthy mn <;> by_cases hmx : truthy mx <;>
    simp [Company.buildCriteriaQuery, specCompanyClauses, specWhereAndChain,
      hn, hmn, hmx] <;> decide

/-! ## Claim theorems -/

/-- Claim C1: for every non-empty update mapping and every translation
table, `sqlForPartialUpdate` succeeds and returns `setCols` equal to the
clauses `"col_i"=$i` joined by `", "`, where `col_i` is the table's
translation of the i-th key in insertion order (the key itself when the
table provides no usable translation) and `i` is that key's 1-based
position, and returns `values` equal to the mapping's values in insertion
order, with as many clauses (each carrying placeholder `$i` for the i-th
value) as values. -/
theorem sqlForPartialUpdate_builds_indexed_clauses
    (data : List (String × JSValue)) (jsToSql : List (String × String))
    (h : data ≠ []) :
    ∃ r, sqlForPartialUpdate data jsToSql = .ok r ∧
      r.values = data.map Prod.snd ∧
      r.setCols = String.intercalate ", "
        ((List.range data.length).map (fun i =>
          "\"" ++ translate jsToSql ((data.map Prod.fst).getD i "") ++ "\"=$" ++
            toString (i + 1))) ∧
      data.length = r.values.length := by
  obtain ⟨hd, tl, rfl⟩ : ∃ hd tl, data = hd :: tl := by
    cases data with
    | nil => exact absurd rfl h
    | cons hd tl => exact ⟨hd, tl, rfl⟩
  refine ⟨_, rfl, rfl, ?_, by simp⟩
  dsimp only
  rw [enum_map_eq_range_map ("" : String)]
  simp [List.length_map]

/-- Witness for C1 at the spec's worked example
`sqlForPartialUpdate({firstName: "Aliya", age: 32}, {firstName: "first_name"})`. -/
theorem sqlForPartialUpdate_builds_indexed_clauses_witness :
    ∃ r, sqlForPartialUpdate exampleUpdateData exampleJsToSql = .ok r ∧
      r.values = exampleUpdateData.map Prod.snd ∧
      r.setCols = String.intercalate ", "
        ((List.range exampleUpdateData.length).map (fun i =>
          "\"" ++ translate exampleJsToSql
              ((exampleUpdateData.map Prod.fst).getD i "") ++ "\"=$" ++
            toString (i + 1))) ∧
      exampleUpdateData.length = r.values.length :=
  sqlForPartialUpdate_builds_indexed_clauses exampleUpdateData exampleJsToSql
    (by decide)

/-- Claim C2: for every translation table, `sqlForPartialUpdate` applied
to an empty update mapping fails with a BadRequest error and never
returns a clause/value pair. -/
theorem sqlForPartialUpdate_empty_is_badRequest
    (jsToSql : List (String × String)) :
    sqlForPartialUpdate [] jsToSql = .error (.badRequest "No data") := rfl

/-- Claim C3: in the generated job and company filter queries, the `$N`
placeholder indices read off the query text are exactly `1..k` where `k`
is the number of returned bind values (so each placeholder equals the
count of bind values accumulated so far plus one and the bind list
matches the placeholders one-to-one), and the equity flag consumes no
bind-value slot: every recognized equity value leaves the bind list
exactly as when the flag is absent. -/
theorem findByCriteria_placeholders_match_values :
    (∀ c : JobCriteria,
      extractPlaceholders (Job.findByCriteria c).query =
        List.range' 1 (Job.findByCriteria c).values.length) ∧
    (∀ c : CompanyCriteria,
      extractPlaceholders (Company.buildCriteriaQuery c).query =
        List.range' 1 (Company.buildCriteriaQuery c).values.length) ∧
    (∀ t m : JSValue,
      (Job.findByCriteria ⟨t, m, .vBool true⟩).values =
        (Job.findByCriteria ⟨t, m, .vUndefined⟩).values ∧
      (Job.findByCriteria ⟨t, m, .vStr "true"⟩).values =
        (Job.findByCriteria ⟨t, m, .vUndefined⟩).values ∧
      (Job.findByCriteria ⟨t, m, .vBool false⟩).values =
        (Job.findByCriteria ⟨t, m, .vUndefined⟩).values ∧
      (Job.findByCriteria ⟨t, m, .vStr "false"⟩).values =
        (Job.findByCriteria ⟨t, m, .vUndefined⟩).values) := by
  refine ⟨job_placeholders_aux, company_placeholders_aux, ?_⟩
  intro t m
  refine ⟨?_, ?_, ?_, ?_⟩ <;> simp [Job.findByCriteria]

/-- Claim C4: both builders evaluate their filters in the fixed declared
order, the first present filter's clause is prefixed with WHERE and every
subsequent present filter's clause with AND (the spec-side
`specWhereAndChain` over the ordered present-clause lists), and the
company query that `Company.findByCriteria` returns on success is exactly
the built one. -/
theorem findByCriteria_where_and_prefixing :
    (∀ c : JobCriteria,
      (Job.findByCriteria c).query =
        jobCriteriaBase ++ specWhereAndChain (specJobClauses c) ++
          "\n      ORDER BY title") ∧
    (∀ c : CompanyCriteria,
      (Company.buildCriteriaQuery c).query =
        companyCriteriaBase ++ specWhereAndChain (specCompanyClauses c) ++
          "\n      ORDER BY name") ∧
    (∀ (c : CompanyCriteria) (bq : BuiltQuery),
      Company.findByCriteria c = .ok bq → bq = Company.buildCriteriaQuery c) := by
  refine ⟨job_chain_aux, company_chain_aux, ?_⟩
  intro c bq h
  by_cases hval : (truthy c.minEmployees && truthy c.maxEmployees &&
      jsGt c.minEmployees c.maxEmployees) = true
  · simp [Company.findByCriteria, hval] at h
  · simp [Company.findByCriteria, hval] at h
    exact h.symm

/-- Witness for C4, instantiating every conjunct (the third at the
criteria `{name: "C", minEmployees: 2, maxEmployees: 5}`, whose built
query `Company.findByCriteria` indeed returns). -/
theorem findByCriteria_where_and_prefixing_witness :
    (Job.findByCriteria ⟨.vStr "J", .vNum 90000, .vBool true⟩).query =
      jobCriteriaBase ++
        specWhereAndChain (specJobClauses ⟨.vStr "J", .vNum 90000, .vBool true⟩) ++
        "\n      ORDER BY title" ∧
    (Company.buildCriteriaQuery ⟨.vStr "C", .vNum 2, .vNum 5⟩).query =
      companyCriteriaBase ++
        specWhereAndChain (specCompanyClauses ⟨.vStr "C", .vNum 2, .vNum 5⟩) ++
        "\n      ORDER BY name" ∧
    Company.buildCriteriaQuery ⟨.vStr "C", .vNum 2, .vNum 5⟩ =
      Company.buildCriteriaQuery ⟨.vStr "C", .vNum 2, .vNum 5⟩ :=
  ⟨findByCriteria_where_and_prefixing.1 _,
   findByCriteria_where_and_prefixing.2.1 _,
   findByCriteria_where_and_prefixing.2.2 _ _ rfl⟩

/-- Claim C5: whenever both employee bounds are provided (truthy) and the
minimum exceeds the maximum, `Company.findByCriteria` fails with the
BadRequest error before any SQL is built, and the executing wrapper
issues no database query at all. -/
theorem company_findByCriteria_minMax_badRequest (db : DBExec)
    (c : CompanyCriteria) (h1 : truthy c.minEmployees = true)
    (h2 : truthy c.maxEmployees = true)
    (h3 : jsGt c.minEmployees c.maxEmployees = true) :
    Company.findByCriteria c =
      .error (.badRequest "minEmployees cannot be greater than maxEmployees") ∧
    Company.findByCriteriaExec db c =
      (.error (.badRequest "minEmployees cannot be greater than maxEmployees"),
       []) := by
  have hb : Company.findByCriteria c =
      .error (.badRequest "minEmployees cannot be greater than maxEmployees") := by
    simp [Company.findByCriteria, h1, h2, h3]
  exact ⟨hb, by simp [Company.findByCriteriaExec, hb]⟩

/-- Witness for C5 at the spec's example `minEmployees=5, maxEmployees=3`. -/
theorem company_findByCriteria_minMax_badRequest_witness :
    Company.findByCriteria ⟨.vUndefined, .vNum 5, .vNum 3⟩ =
      .error (.badRequest "minEmployees cannot be greater than maxEmployees") ∧
    Company.findByCriteriaExec emptyDB ⟨.vUndefined, .vNum 5, .vNum 3⟩ =
      (.error (.badRequest "minEmployees cannot be greater than maxEmployees"),
       []) :=
  company_findByCriteria_minMax_badRequest emptyDB _ (by decide) (by decide)
    (by decide)

/-- Claim C6: a falsy filter value (undefined, 0, empty string — i.e.
`truthy` false) contributes neither a clause nor a bind value in either
builder, while the jobs equity flag is tri-state: `true`/"true" add the
clause `equity > 0`, `false`/"false" add `equity = 0`, and both recognized
states produce queries distinct from the flag-absent query and from each
other. -/
theorem falsy_filter_values_not_provided :
    (∀ t m e : JSValue, truthy t = false →
      Job.findByCriteria ⟨t, m, e⟩ = Job.findByCriteria ⟨.vUndefined, m, e⟩) ∧
    (∀ t m e : JSValue, truthy m = false →
      Job.findByCriteria ⟨t, m, e⟩ = Job.findByCriteria ⟨t, .vUndefined, e⟩) ∧
    (∀ n mn mx : JSValue, truthy n = false →
      Company.findByCriteria ⟨n, mn, mx⟩ =
        Company.findByCriteria ⟨.vUndefined, mn, mx⟩) ∧
    (∀ n mn mx : JSValue, truthy mn = false →
      Company.findByCriteria ⟨n, mn, mx⟩ =
        Company.findByCriteria ⟨n, .vUndefined, mx⟩) ∧
    (∀ n mn mx : JSValue, truthy mx = false →
      Company.findByCriteria ⟨n, mn, mx⟩ =
        Company.findByCriteria ⟨n, mn, .vUndefined⟩) ∧
    (∀ t m : JSValue,
      Job.findByCriteria ⟨t, m, .vBool true⟩ =
        Job.findByCriteria ⟨t, m, .vStr "true"⟩ ∧
      Job.findByCriteria ⟨t, m, .vBool false⟩ =
        Job.findByCriteria ⟨t, m, .vStr "false"⟩) ∧
    (∀ t m : JSValue,
      (Job.findByCriteria ⟨t, m, .vBool true⟩).query =
        jobCriteriaBase ++ specWhereAndChain
          (specJobClauses ⟨t, m, .vUndefined⟩ ++ ["equity > 0"]) ++
          "\n      ORDER BY title" ∧
      (Job.findByCriteria ⟨t, m, .vBool false⟩).query =
        jobCriteriaBase ++ specWhereAndChain
          (specJobClauses ⟨t, m, .vUndefined⟩ ++ ["equity = 0"]) ++
          "\n      ORDER BY title") ∧
    (∀ t m : JSValue,
      (Job.findByCriteria ⟨t, m, .vBool true⟩).query ≠
        (Job.findByCriteria ⟨t, m, .vUndefined⟩).query ∧
      (Job.findByCriteria ⟨t, m, .vBool false⟩).query ≠
        (Job.findByCriteria ⟨t, m, .vUndefined⟩).query ∧
      (Job.findByCriteria ⟨t, m, .vBool true⟩).query ≠
        (Job.findByCriteria ⟨t, m, .vBool false⟩).query) := by
  refine ⟨?_, ?_, ?_, ?_, ?_, ?_, ?_, ?_⟩
  · intro t m e ht
    simp [Job.findByCriteria, truthy_undefined, ht]
  · intro t m e hm
    simp [Job.findByCriteria, truthy_undefined, hm]
  · intro n mn mx h
    simp [Company.findByCriteria, Company.buildCriteriaQuery, truthy_undefined, h]
  · intro n mn mx h
    simp [Company.findByCriteria, Company.buildCriteriaQuery, truthy_undefined, h]
  · intro n mn mx h
    simp [Company.findByCriteria, Company.buildCriteriaQuery, truthy_undefined, h]
  · intro t m
    exact ⟨by simp [Job.findByCriteria], by simp [Job.findByCriteria]⟩
  · intro t m
    constructor <;>
      (by_cases ht : truthy t <;> by_cases hm : truthy m <;>
        simp [Job.findByCriteria, specJobClauses, specWhereAndChain, ht, hm] <;>
          decide)
  · intro t m
    refine ⟨?_, ?_, ?_⟩ <;>
      (by_cases ht : truthy t <;> by_cases hm : truthy m <;>
        simp [Job.findByCriteria, ht, hm] <;> decide)

/-- Witness for C6, discharging the truthiness hypotheses at the falsy
values empty string and 0 for each of the five falsy-filter conjuncts. -/
theorem falsy_filter_values_not_provided_witness :
    Job.findByCriteria ⟨.vStr "", .vNum 90000, .vBool true⟩ =
      Job.findByCriteria ⟨.vUndefined, .vNum 90000, .vBool true⟩ ∧
    Job.findByCriteria ⟨.vStr "J", .vNum 0, .vBool true⟩ =
      Job.findByCriteria ⟨.vStr "J", .vUndefined, .vBool true⟩ ∧
    Company.findByCriteria ⟨.vStr "", .vNum 2, .vNum 5⟩ =
      Company.findByCriteria ⟨.vUndefined, .vNum 2, .vNum 5⟩ ∧
    Company.findByCriteria ⟨.vStr "C", .vNum 0, .vNum 5⟩ =
      Company.findByCriteria ⟨.vStr "C", .vUndefined, .vNum 5⟩ ∧
    Company.findByCriteria ⟨.vStr "C", .vNum 2, .vNum 0⟩ =
      Company.findByCriteria ⟨.vStr "C", .vNum 2, .vUndefined⟩ :=
  ⟨falsy_filter_values_not_provided.1 _ _ _ (by decide),
   falsy_filter_values_not_provided.2.1 _ _ _ (by decide),
   falsy_filter_values_not_provided.2.2.1 _ _ _ (by decide),
   falsy_filter_values_not_provided.2.2.2.1 _ _ _ (by decide),
   falsy_filter_values_not_provided.2.2.2.2.1 _ _ _ (by decide)⟩

/-- Claim C7: for jobs and companies alike, when the database returns no
matching row, `get`, `update` (on non-empty update data, i.e. after the
SET clause is built) and `remove` all fail with the respective NotFound
error. -/
theorem missing_row_is_notFound (db : DBExec) (id handle : JSValue)
    (data : List (String × JSValue)) (hdb : ∀ q v, db q v = [])
    (hdata : data ≠ []) :
    Job.get db id = .error (.notFound ("No job with an id of " ++ jsToString id)) ∧
    Job.update db id data =
      .error (.notFound ("No job with id: " ++ jsToString id)) ∧
    Job.remove db id = .error (.notFound "No job found") ∧
    Company.get db handle =
      .error (.notFound ("No company: " ++ jsToString handle)) ∧
    Company.update db handle data =
      .error (.notFound ("No company: " ++ jsToString handle)) ∧
    Company.remove db handle =
      .error (.notFound ("No company: " ++ jsToString handle)) := by
  obtain ⟨hd, tl, rfl⟩ : ∃ hd tl, data = hd :: tl := by
    cases data with
    | nil => exact absurd rfl hdata
    | cons hd tl => exact ⟨hd, tl, rfl⟩
  refine ⟨?_, ?_, ?_, ?_, ?_, ?_⟩ <;>
    simp [Job.get, Job.update, Job.remove, Company.get, Company.update,
      Company.remove, sqlForPartialUpdate, hdb]

/-- Witness for C7 against the row-less database executor, with the
one-field update `{title: "x"}`. -/
theorem missing_row_is_notFound_witness :
    Job.get emptyDB (.vNum 0) =
      .error (.notFound ("No job with an id of " ++ jsToString (.vNum 0))) ∧
    Job.update emptyDB (.vNum 0) [("title", JSValue.vStr "x")] =
      .error (.notFound ("No job with id: " ++ jsToString (.vNum 0))) ∧
    Job.remove emptyDB (.vNum 0) = .error (.notFound "No job found") ∧
    Company.get emptyDB (.vStr "nope") =
      .error (.notFound ("No company: " ++ jsToString (.vStr "nope"))) ∧
    Company.update emptyDB (.vStr "nope") [("title", JSValue.vStr "x")] =
      .error (.notFound ("No company: " ++ jsToString (.vStr "nope"))) ∧
    Company.remove emptyDB (.vStr "nope") =
      .error (.notFound ("No company: " ++ jsToString (.vStr "nope"))) :=
  missing_row_is_notFound emptyDB (.vNum 0) (.vStr "nope")
    [("title", JSValue.vStr "x")] (fun _ _ => rfl) (by decide)

/-- Claim C8: `Company.create` fails with BadRequest when the duplicate
check finds an existing row for the handle — and then issues only the
duplicate-check query, never the insert — and otherwise issues the
duplicate check followed by the insert and returns the inserted row. -/
theorem company_create_checks_duplicate_first (db : DBExec) (c : CompanyData) :
    (db companyDupCheckQuery [c.handle] ≠ [] →
      Company.create db c =
        (.error (.badRequest ("Duplicate company: " ++ jsToString c.handle)),
         [(companyDupCheckQuery, [c.handle])])) ∧
    (db companyDupCheckQuery [c.handle] = [] →
      Company.create db c =
        (.ok (db companyInsertQuery
            [c.handle, c.name, c.description, c.numEmployees, c.logoUrl]).head?,
         [(companyDupCheckQuery, [c.handle]),
          (companyInsertQuery,
           [c.handle, c.name, c.description, c.numEmployees, c.logoUrl])])) := by
  constructor
  · intro hne
    obtain ⟨r, rest, hr⟩ : ∃ r rest, db companyDupCheckQuery [c.handle] = r :: rest := by
      cases hdb : db companyDupCheckQuery [c.handle] with
      | nil => exact absurd hdb hne
      | cons r rest => exact ⟨r, rest, rfl⟩
    simp [Company.create, hr]
  · intro he
    simp [Company.create, he]

/-- Witness for C8: a database whose duplicate check hits rejects without
inserting; the row-less database leads to the check-then-insert trace. -/
theorem company_create_checks_duplicate_first_witness :
    Company.create oneRowDB ⟨.vStr "c1", .vStr "C1", .vStr "D", .vNum 1, .vStr "L"⟩ =
      (.error (.badRequest ("Duplicate company: " ++ jsToString (.vStr "c1"))),
       [(companyDupCheckQuery, [.vStr "c1"])]) ∧
    Company.create emptyDB ⟨.vStr "c9", .vStr "C9", .vStr "D", .vNum 1, .vStr "L"⟩ =
      (.ok none,
       [(companyDupCheckQuery, [.vStr "c9"]),
        (companyInsertQuery,
         [.vStr "c9", .vStr "C9", .vStr "D", .vNum 1, .vStr "L"])]) :=
  ⟨(company_create_checks_duplicate_first oneRowDB _).1 (by decide),
   (company_create_checks_duplicate_first emptyDB _).2 rfl⟩

/-- Claim C9: a translation-table entry whose mapped value is the falsy
empty string is treated exactly as if the key were absent: the key
translates to itself, and `sqlForPartialUpdate` produces the same result
as with every entry for that key removed from the table. -/
theorem falsy_translation_entry_ignored (data : List (String × JSValue))
    (jsToSql : List (String × String)) (key : String)
    (h : jsToSql.lookup key = some "") :
    translate jsToSql key = key ∧
    sqlForPartialUpdate data jsToSql =
      sqlForPartialUpdate data (jsToSql.filter (fun p => p.1 != key)) := by
  have ht : translate jsToSql = translate (jsToSql.filter (fun p => p.1 != key)) :=
    funext (translate_filter jsToSql key h)
  constructor
  · simp [translate, h]
  · simp only [sqlForPartialUpdate, ht]

/-- Witness for C9 at the table `{firstName: ""}`. -/
theorem falsy_translation_entry_ignored_witness :
    translate [("firstName", "")] "firstName" = "firstName" ∧
    sqlForPartialUpdate [("firstName", JSValue.vStr "Aliya")] [("firstName", "")] =
      sqlForPartialUpdate [("firstName", JSValue.vStr "Aliya")]
        (([("firstName", "")] : List (String × String)).filter
          (fun p => p.1 != "firstName")) :=
  falsy_translation_entry_ignored [("firstName", JSValue.vStr "Aliya")]
    [("firstName", "")] "firstName" (by decide)

/-- Claim C10: a provided `hasEquity` value that is none of `true`,
`false`, "true", "false" is silently ignored by `Job.findByCriteria`: the
result is identical to the flag being absent. -/
theorem unrecognized_hasEquity_ignored (t m e : JSValue)
    (h1 : e ≠ .vBool true) (h2 : e ≠ .vBool false) (h3 : e ≠ .vStr "true")
    (h4 : e ≠ .vStr "false") :
    Job.findByCriteria ⟨t, m, e⟩ = Job.findByCriteria ⟨t, m, .vUndefined⟩ := by
  simp [Job.findByCriteria, h1, h2, h3, h4]

/-- Witness for C10 at the unrecognized values "yes" and 1. -/
theorem unrecognized_hasEquity_ignored_witness :
    Job.findByCriteria ⟨.vStr "J", .vNum 90000, .vStr "yes"⟩ =
      Job.findByCriteria ⟨.vStr "J", .vNum 90000, .vUndefined⟩ ∧
    Job.findByCriteria ⟨.vStr "J", .vNum 90000, .vNum 1⟩ =
      Job.findByCriteria ⟨.vStr "J", .vNum 90000, .vUndefined⟩ :=
  ⟨unrecognized_hasEquity_ignored _ _ _ (by decide) (by decide) (by decide)
     (by decide),
   unrecognized_hasEquity_ignored _ _ _ (by decide) (by decide) (by decide)
     (by decide)⟩

end Jobly
